import Mathlib

/-!
Shallow embedding of `src/Application.cpp` (LearnWebGPU cube-map compute demo).
Pure functions are translated directly; the stateful GUI/compute flag logic is
modelled as explicit state-passing on small structures; the calls the
application issues to the graphics API (texture creation, uploads, dispatches,
releases, file saves) are recorded as values so that their shapes and orders
can be reasoned about.
-/

namespace LearnWebGPU

/-! ## Utils (Application.cpp lines 66-74) -/

/-- Loop of `bit_width`: `while (m >>= 1) ++w;` — each iteration first halves
`m`, then stops when the new value is zero, otherwise increments `w`. -/
def bitWidthLoop (m w : Nat) : Nat :=
  if m / 2 = 0 then w else bitWidthLoop (m / 2) (w + 1)
termination_by m
decreasing_by omega

/-- Function `bit_width` (lines 67-70): returns 0 for m = 0, otherwise runs the
halving loop starting from w = 0. -/
def bit_width (m : Nat) : Nat :=
  if m = 0 then 0 else bitWidthLoop m 0

/-- Function `getMaxMipLevelCount` (lines 72-74): `bit_width(max(width, height))`. -/
def getMaxMipLevelCount (width height : Nat) : Nat :=
  bit_width (max width height)

/-- The loop computes `w + Nat.log2 m` whenever `m` is nonzero. -/
theorem bitWidthLoop_eq_log2 (m w : Nat) (hm : m ≠ 0) :
    bitWidthLoop m w = w + Nat.log2 m := by
  induction m using Nat.strong_induction_on generalizing w with
  | _ m ih =>
    rw [bitWidthLoop, Nat.log2]
    by_cases h : m / 2 = 0
    · have h2 : ¬ 2 ≤ m := by omega
      simp [h, h2]
    · have hlt : m / 2 < m := by omega
      have h2 : 2 ≤ m := by omega
      rw [if_neg h, if_pos h2, ih (m / 2) hlt (w + 1) h]
      omega

/-- For nonzero `m`, the code's `bit_width` returns `floor(log2 m)`,
not `floor(log2 m) + 1`. -/
theorem bit_width_eq_log2 (m : Nat) (hm : m ≠ 0) :
    bit_width m = Nat.log2 m := by
  rw [bit_width, if_neg hm, bitWidthLoop_eq_log2 m 0 hm, Nat.zero_add]

/-! ## Compute dispatch sizing (Application.cpp lines 603-657) -/

/-- The modulus 2^32 of `uint32_t` arithmetic. -/
def U32 : Nat := 2 ^ 32

/-- Constant `workgroupSizePerDim = 4` (line 636). -/
def workgroupSizePerDim : Nat := 4

/-- The workgroup count per dimension (lines 638-639):
`(invocationCount + workgroupSizePerDim - 1) / workgroupSizePerDim` evaluated
in `uint32_t` arithmetic (the sum is taken modulo 2^32 before the division;
the division result never needs reduction). -/
def workgroupCount (invocationCount : Nat) : Nat :=
  ((invocationCount + workgroupSizePerDim - 1) % U32) / workgroupSizePerDim

/-- One `dispatchWorkgroups(x, y, z)` call. -/
structure DispatchCmd where
  x : Nat
  y : Nat
  z : Nat
deriving DecidableEq, Repr

/-- The dispatches issued by one call to `onCompute` (lines 631-641): a loop
`for (uint32_t i = 0; i < 1; ++i)` issuing
`dispatchWorkgroups(workgroupCountX, workgroupCountY, 1)` where the counts are
derived from the output texture's width and height. -/
def onComputeDispatches (width height : Nat) : List DispatchCmd :=
  (List.range 1).map (fun _ =>
    { x := workgroupCount width, y := workgroupCount height, z := 1 })

/-! ## Kernel normalization (Application.cpp lines 557-575)

`m_parameters.kernel` is a glm matrix of three columns, each a 4-component
vector; the GUI sliders "Kernel X/Y/Z" edit the first three components of
columns 0/1/2 (lines 562-564), the fourth component of each column being
std140 padding.  The float arithmetic of glm is embedded over `ℚ` (exact
field arithmetic; the structure of the computation — which components are
summed, the guard, the division — is what the claims are about). -/

/-- A glm `vec4`. -/
structure Vec4 where
  x : ℚ
  y : ℚ
  z : ℚ
  w : ℚ
deriving DecidableEq, Repr

/-- Componentwise sum of two `vec4`s. -/
def Vec4.add (a b : Vec4) : Vec4 :=
  ⟨a.x + b.x, a.y + b.y, a.z + b.z, a.w + b.w⟩

/-- glm `dot` on `vec4`. -/
def Vec4.dot (a b : Vec4) : ℚ :=
  a.x * b.x + a.y * b.y + a.z * b.z + a.w * b.w

/-- Componentwise division of a `vec4` by a scalar (glm `operator/`). -/
def Vec4.divScalar (a : Vec4) (s : ℚ) : Vec4 :=
  ⟨a.x / s, a.y / s, a.z / s, a.w / s⟩

/-- The kernel matrix: three columns of `vec4` (glm `mat3x4`). -/
structure KernelMat where
  c0 : Vec4
  c1 : Vec4
  c2 : Vec4
deriving DecidableEq, Repr

/-- Product `kernel * vec3(1.0)` (line 569): the matrix-vector product of a
three-column matrix with the all-ones `vec3`, i.e. the sum of the columns. -/
def KernelMat.mulVec3Ones (k : KernelMat) : Vec4 :=
  (k.c0.add k.c1).add k.c2

/-- Componentwise division of the kernel matrix by a scalar. -/
def KernelMat.divScalar (k : KernelMat) (s : ℚ) : KernelMat :=
  ⟨k.c0.divScalar s, k.c1.divScalar s, k.c2.divScalar s⟩

/-- The value `sum = dot(vec4(1,1,1,0), kernel * vec3(1.0))` of line 569. -/
def kernelSum (k : KernelMat) : ℚ :=
  Vec4.dot ⟨1, 1, 1, 0⟩ k.mulVec3Ones

/-- The literal `1e-6` of line 570. -/
def epsilon : ℚ := 1 / 1000000

/-- The uniform kernel computed in `onGui` when a parameter change was
registered (lines 570-572):
`normalize && abs(sum) > 1e-6 ? kernel / sum : kernel`. -/
def onGuiKernel (normalizeFlag : Bool) (k : KernelMat) : KernelMat :=
  if normalizeFlag = true ∧ |kernelSum k| > epsilon
  then k.divScalar (kernelSum k)
  else k

/-- The sum of the first three components of every column ("row" of the GUI's
3x3 kernel): the nine slider-edited entries. -/
def allEntriesSum (k : KernelMat) : ℚ :=
  k.c0.x + k.c0.y + k.c0.z + k.c1.x + k.c1.y + k.c1.z +
    k.c2.x + k.c2.y + k.c2.z

/-- Stated from the claim's words, for comparison with `onGuiKernel`: the sum
of the first two rows' relevant components only. -/
def specFirstTwoRowsSum (k : KernelMat) : ℚ :=
  k.c0.x + k.c0.y + k.c0.z + k.c1.x + k.c1.y + k.c1.z

/-- Stated from the claim's words, for comparison with `onGuiKernel`: divide
by `specFirstTwoRowsSum` when normalization is enabled and the sum exceeds
`1e-6`; otherwise the kernel unchanged. -/
def specUniformKernel (normalizeFlag : Bool) (k : KernelMat) : KernelMat :=
  if normalizeFlag = true ∧ specFirstTwoRowsSum k > epsilon
  then k.divScalar (specFirstTwoRowsSum k)
  else k

/-! ## Initialization and error handling (Application.cpp lines 86-98,
121-197, 207-226, 289-337) -/

/-- The environment outcomes initialization depends on: whether `glfwInit`,
`glfwCreateWindow`, `createInstance` succeed, whether `requestAdapter` and
`requestDevice` return null, and whether `stbi_load` returns non-null. -/
structure InitEnv where
  glfwOk : Bool
  windowOk : Bool
  instanceOk : Bool
  adapterNull : Bool
  deviceNull : Bool
  imageOk : Bool
deriving DecidableEq, Repr

/-- Function `initWindow` (lines 207-226): logs and returns false if GLFW fails to
initialize or the window cannot be opened; otherwise returns true. -/
def initWindow (e : InitEnv) : List String × Bool :=
  if e.glfwOk = false then ([ "Could not initialize GLFW!" ], false)
  else if e.windowOk = false then ([ "Could not open window!" ], false)
  else ([], true)

/-- Function `initDevice` (lines 121-197): checks only the instance; after that it
proceeds unconditionally — the results of `requestAdapter` and
`requestDevice` are logged but never tested against null, and the function
returns true. -/
def initDevice (e : InitEnv) : List String × Bool :=
  if e.instanceOk = false then ([ "Could not initialize WebGPU!" ], false)
  else
    ([ "Requesting adapter...", "Got adapter: <handle>",
      "Requesting device...", "Got device: <handle>"], true)

/-- A WebGPU `Extent3D`. -/
structure Extent3D where
  width : Nat
  height : Nat
  depthOrArrayLayers : Nat
deriving DecidableEq, Repr

/-- The fields of a texture descriptor the claims are about. -/
structure TextureDesc where
  label : String
  size : Extent3D
  mipLevelCount : Nat
deriving DecidableEq, Repr

/-- The `writeTexture` upload issued for the input texture
(lines 323-333). -/
structure WriteTextureCall where
  mipLevel : Nat
  bytesPerRow : Nat
  rowsPerImage : Nat
  dataSize : Nat
  writeSize : Extent3D
deriving DecidableEq, Repr

/-- What a successful `initTextures` run produced. -/
structure TexturesResult where
  input : TextureDesc
  output : TextureDesc
  upload : WriteTextureCall
deriving DecidableEq, Repr

/-- Function `initTextures` (lines 289-337): `imageOk` models `stbi_load` returning a
non-null pixel pointer for the image of size `width × height`; on a null
pointer it throws `std::runtime_error("Could not load input texture!")`.
Otherwise it creates the input texture (size `{width, height, 1}`, one mip
level), the output texture (size `{2^outputSizeLog, 2^outputSizeLog, 6}`,
one mip level — the descriptor's `mipLevelCount` of line 304 is reused),
and uploads mip level 0 of the input data. -/
def initTextures (imageOk : Bool) (width height outputSizeLog : Nat) :
    Except String TexturesResult :=
  if imageOk = false then Except.error "Could not load input texture!"
  else
    let textureSize : Extent3D := ⟨width, height, 1⟩
    let size := 2 ^ outputSizeLog
    Except.ok
      { input := { label := "Input", size := textureSize, mipLevelCount := 1 }
        output := { label := "Output", size := ⟨size, size, 6⟩,
                    mipLevelCount := 1 }
        upload := { mipLevel := 0, bytesPerRow := 4 * width,
                    rowsPerImage := height, dataSize := 4 * width * height,
                    writeSize := textureSize } }

/-- Function `onInit` (lines 86-98): early-returns false when `initWindow` or
`initDevice` report failure; the later init calls do not return a status, but
`initTextures` may throw, and `onInit` does not catch — the exception
propagates out (modelled as `Except.error`).  On success returns true. -/
def onInit (e : InitEnv) (width height outputSizeLog : Nat) :
    Except String Bool :=
  if (initWindow e).2 = false then Except.ok false
  else if (initDevice e).2 = false then Except.ok false
  else
    match initTextures e.imageOk width height outputSizeLog with
    | Except.error msg => Except.error msg
    | Except.ok _ => Except.ok true

/-! ## Resource creation / release order (Application.cpp lines 86-111,
603-614) -/

/-- The GPU-side resources the application creates and releases. -/
inductive Resource where
  | window
  | device
  | swapChain
  | gui
  | bindGroupLayout
  | computePipeline
  | buffers
  | textures
  | textureViews
  | bindGroup
deriving DecidableEq, Repr

/-- Creation order of `onInit` (lines 86-98). -/
def onInitOrder : List Resource :=
  [Resource.window, Resource.device, Resource.swapChain, Resource.gui,
   Resource.bindGroupLayout, Resource.computePipeline, Resource.buffers,
   Resource.textures, Resource.textureViews, Resource.bindGroup]

/-- Release order of `onFinish` (lines 100-111). -/
def onFinishOrder : List Resource :=
  [Resource.bindGroup, Resource.textureViews, Resource.textures,
   Resource.buffers, Resource.computePipeline, Resource.bindGroupLayout,
   Resource.gui, Resource.swapChain, Resource.device, Resource.window]

/-- Release order of the reallocation branch of `onCompute`
(lines 607-609). -/
def onComputeReallocTerminateOrder : List Resource :=
  [Resource.bindGroup, Resource.textureViews, Resource.textures]

/-- Re-creation order of the reallocation branch of `onCompute`
(lines 610-612). -/
def onComputeReallocInitOrder : List Resource :=
  [Resource.textures, Resource.textureViews, Resource.bindGroup]

/-! ## Save Output button (Application.cpp lines 583-596) -/

/-- One `saveTexture(path, device, texture, mipLevel, layer)` call. -/
structure SaveCall where
  path : String
  mipLevel : Nat
  layer : Nat
deriving DecidableEq, Repr

/-- The `outputPaths` array (lines 584-591), parameterized by the
compile-time `RESOURCE_DIR` prefix. -/
def outputPaths (resourceDir : String) : List String :=
  [resourceDir ++ "/cubemap-posX.png",
   resourceDir ++ "/cubemap-negX.png",
   resourceDir ++ "/cubemap-posY.png",
   resourceDir ++ "/cubemap-negY.png",
   resourceDir ++ "/cubemap-posZ.png",
   resourceDir ++ "/cubemap-negZ.png"]

/-- The `saveTexture` calls issued when the "Save Output" button is pressed
(lines 593-595): `for (uint32_t layer = 0; layer < 6; ++layer)
saveTexture(outputPaths[layer], m_device, m_outputTexture, 0, layer)`. -/
def saveOutputCalls (resourceDir : String) : List SaveCall :=
  (List.range 6).map (fun layer =>
    { path := (outputPaths resourceDir).getD layer "", mipLevel := 0,
      layer := layer })

/-! ## Compute / reallocate flags (Application.cpp lines 117-119, 568-582,
603-657) -/

/-- The two bool members driving recomputation. -/
structure AppFlags where
  shouldCompute : Bool
  shouldReallocateTextures : Bool
deriving DecidableEq, Repr

/-- Accessor `shouldCompute()` (lines 117-119). -/
def shouldCompute (s : AppFlags) : Bool :=
  s.shouldCompute

/-- What the GUI widgets reported on one `onGui` run: whether any parameter
widget returned true (line 557-565, `changed`) and whether the
"Output Size (log)" slider returned true (line 579). -/
structure GuiInput where
  paramsChanged : Bool
  outputSizeChanged : Bool
deriving DecidableEq, Repr

/-- Flag updates of `onGui` (lines 568-582): first
`m_shouldCompute = m_shouldCompute || changed` (line 575), then — if the
output-size slider changed — both `m_shouldReallocateTextures = true` and
`m_shouldCompute = true` (lines 580-581).  No statement of `onGui` ever sets
either flag to false. -/
def onGuiFlags (s : AppFlags) (i : GuiInput) : AppFlags :=
  let s1 : AppFlags :=
    { s with shouldCompute := s.shouldCompute || i.paramsChanged }
  if i.outputSizeChanged = true
  then { s1 with shouldReallocateTextures := true, shouldCompute := true }
  else s1

/-- Flag updates of `onCompute` (lines 603-657): the reallocation branch
clears `m_shouldReallocateTextures` (line 613) when it was set, and the
function ends with `m_shouldCompute = false` (line 656). -/
def onComputeFlags (s : AppFlags) : AppFlags :=
  let s1 : AppFlags :=
    if s.shouldReallocateTextures = true
    then { s with shouldReallocateTextures := false }
    else s
  { s1 with shouldCompute := false }

/-! ## Theorems for the claims -/

/-- Claim C5: GPU resources are released in exact reverse order of their
creation: `onFinish` (lines 100-111) reverses `onInit`'s creation order
(lines 86-98), and the reallocation branch of `onCompute` (lines 606-614)
releases bind group, texture views, textures in the reverse of the order it
re-creates them, so the bind group never outlives the views, textures,
buffer, pipeline or layout it was built from. -/
theorem C5_teardown_reverse_order :
    onFinishOrder = onInitOrder.reverse
    ∧ onComputeReallocTerminateOrder = onComputeReallocInitOrder.reverse
    ∧ onInitOrder.reverse =
        Resource.bindGroup :: Resource.textureViews :: Resource.textures ::
          [Resource.buffers, Resource.computePipeline,
           Resource.bindGroupLayout, Resource.gui, Resource.swapChain,
           Resource.device, Resource.window] :=
  ⟨rfl, rfl, rfl⟩

/-- Claim C6: pressing "Save Output" (lines 583-596) issues exactly six
`saveTexture` calls, writing mip level 0 of output layers 0..5 in ascending
order, layer `k` going to the `k`-th of the six fixed cubemap paths in the
resource directory. -/
theorem C6_save_output_calls (resourceDir : String) :
    saveOutputCalls resourceDir =
      [{ path := resourceDir ++ "/cubemap-posX.png", mipLevel := 0, layer := 0 },
       { path := resourceDir ++ "/cubemap-negX.png", mipLevel := 0, layer := 1 },
       { path := resourceDir ++ "/cubemap-posY.png", mipLevel := 0, layer := 2 },
       { path := resourceDir ++ "/cubemap-negY.png", mipLevel := 0, layer := 3 },
       { path := resourceDir ++ "/cubemap-posZ.png", mipLevel := 0, layer := 4 },
       { path := resourceDir ++ "/cubemap-negZ.png", mipLevel := 0, layer := 5 }]
    ∧ (saveOutputCalls resourceDir).length = 6
    ∧ (saveOutputCalls resourceDir).map SaveCall.layer = [0, 1, 2, 3, 4, 5]
    ∧ (saveOutputCalls resourceDir).map SaveCall.mipLevel = [0, 0, 0, 0, 0, 0] :=
  ⟨rfl, rfl, rfl, rfl⟩

/-- Claim C7: every call to `onCompute` issues exactly one dispatch
(the loop of line 631 runs once), and its workgroup grid is two-dimensional:
the Z workgroup count is exactly 1 (line 640). -/
theorem C7_single_2d_dispatch (width height : Nat) :
    onComputeDispatches width height =
      [{ x := workgroupCount width, y := workgroupCount height, z := 1 }]
    ∧ (onComputeDispatches width height).length = 1
    ∧ (onComputeDispatches width height).map DispatchCmd.z = [1] :=
  ⟨rfl, rfl, rfl⟩

/-- Claim C9: when `onCompute` returns, both `m_shouldCompute` and
`m_shouldReallocateTextures` are false, so `shouldCompute()` reports false;
and `onGui` computes `m_shouldCompute` as the disjunction of its old value
with the parameter/output-size change flags — it becomes true only through a
change and is never cleared by `onGui`. -/
theorem C9_flags (s : AppFlags) (i : GuiInput) :
    (onComputeFlags s).shouldCompute = false
    ∧ (onComputeFlags s).shouldReallocateTextures = false
    ∧ shouldCompute (onComputeFlags s) = false
    ∧ (onGuiFlags s i).shouldCompute
        = (s.shouldCompute || i.paramsChanged || i.outputSizeChanged)
    ∧ (onGuiFlags s i).shouldReallocateTextures
        = (s.shouldReallocateTextures || i.outputSizeChanged) := by
  obtain ⟨sc, sr⟩ := s
  obtain ⟨pc, oc⟩ := i
  cases sc <;> cases sr <;> cases pc <;> cases oc <;>
    simp [onComputeFlags, onGuiFlags, shouldCompute]

/-- A concrete kernel whose GUI rows are (-1,0,0), (0,0,0), (-1,0,0):
`dot(vec4(1,1,1,0), kernel * vec3(1.0)) = -2`, while the first two rows sum
to -1. -/
def counterKernel : KernelMat :=
  ⟨⟨-1, 0, 0, 0⟩, ⟨0, 0, 0, 0⟩, ⟨-1, 0, 0, 0⟩⟩

/-- Claim C1 as stated is false: with normalization enabled and kernel rows
(-1,0,0), (0,0,0), (-1,0,0), the code divides by the sum of all three rows'
components through `abs` (sum = -2, |−2| > 1e-6, so it divides), while the
claim's recipe — the first two rows' sum, -1, compared directly against
1e-6 — leaves the kernel unchanged. -/
theorem C1_counterexample :
    onGuiKernel true counterKernel ≠ specUniformKernel true counterKernel := by
  have hsum : kernelSum counterKernel = -2 := by
    norm_num [kernelSum, counterKernel, KernelMat.mulVec3Ones, Vec4.add,
      Vec4.dot]
  have hspec : specFirstTwoRowsSum counterKernel = -1 := by
    norm_num [specFirstTwoRowsSum, counterKernel]
  have hcond : true = true ∧ |kernelSum counterKernel| > epsilon :=
    ⟨rfl, by
      rw [hsum, abs_of_nonpos (by norm_num : (-2 : ℚ) ≤ 0)]
      norm_num [epsilon]⟩
  have h1 : onGuiKernel true counterKernel =
      ⟨⟨1 / 2, 0, 0, 0⟩, ⟨0, 0, 0, 0⟩, ⟨1 / 2, 0, 0, 0⟩⟩ := by
    unfold onGuiKernel
    rw [if_pos hcond, hsum]
    simp only [counterKernel, KernelMat.divScalar, Vec4.divScalar,
      KernelMat.mk.injEq, Vec4.mk.injEq]
    norm_num
  have hneg : ¬(true = true ∧ specFirstTwoRowsSum counterKernel > epsilon) := by
    rw [hspec]
    norm_num [epsilon]
  have h2 : specUniformKernel true counterKernel = counterKernel := by
    unfold specUniformKernel
    rw [if_neg hneg]
  rw [h1, h2]
  simp only [counterKernel, ne_eq, KernelMat.mk.injEq, Vec4.mk.injEq]
  norm_num

/-- Claim C1 (amended): when a parameter change is registered in `onGui`, the
uniform kernel is the parameter kernel divided by the sum of all three rows'
first three components (all nine slider-edited entries) when normalization is
enabled and the absolute value of that sum exceeds 1e-6; otherwise it is the
parameter kernel unchanged (lines 569-572). -/
theorem C1_normalization_uses_all_rows (nf : Bool) (k : KernelMat) :
    onGuiKernel nf k =
      if nf = true ∧ |allEntriesSum k| > epsilon
      then k.divScalar (allEntriesSum k)
      else k := by
  have h : kernelSum k = allEntriesSum k := by
    unfold kernelSum KernelMat.mulVec3Ones Vec4.dot Vec4.add allEntriesSum
    ring
  unfold onGuiKernel
  rw [h]

/-- Claim C2: `onCompute` dispatches exactly
`workgroupCountX = (W + 4 - 1) / 4` by `workgroupCountY = (H + 4 - 1) / 4`
workgroups (lines 634-640), and for all dimensions at most 2^32 - 4 these
counts are the true ceiling divisions by 4: each is the least `n` with the
dimension at most `4 * n`. -/
theorem C2_dispatch_counts_are_ceiling (W H : Nat)
    (hW : W ≤ 2 ^ 32 - 4) (hH : H ≤ 2 ^ 32 - 4) :
    onComputeDispatches W H = [⟨(W + 4 - 1) / 4, (H + 4 - 1) / 4, 1⟩]
    ∧ (W ≤ 4 * workgroupCount W ∧ ∀ n : Nat, W ≤ 4 * n → workgroupCount W ≤ n)
    ∧ (H ≤ 4 * workgroupCount H ∧ ∀ n : Nat, H ≤ 4 * n → workgroupCount H ≤ n) := by
  have h32 : (2 : Nat) ^ 32 = 4294967296 := by norm_num
  have hw : workgroupCount W = (W + 4 - 1) / 4 := by
    unfold workgroupCount workgroupSizePerDim U32
    rw [Nat.mod_eq_of_lt (by omega)]
  have hh : workgroupCount H = (H + 4 - 1) / 4 := by
    unfold workgroupCount workgroupSizePerDim U32
    rw [Nat.mod_eq_of_lt (by omega)]
  refine ⟨?_, ⟨?_, ?_⟩, ⟨?_, ?_⟩⟩
  · simp [onComputeDispatches, hw, hh]
  · rw [hw]; omega
  · intro n hn; rw [hw]; omega
  · rw [hh]; omega
  · intro n hn; rw [hh]; omega

/-- Witness for C2 at W = H = 10: the single dispatch is 3 × 3 × 1 and 3 is
the ceiling of 10 / 4. -/
theorem C2_witness :
    onComputeDispatches 10 10 = [⟨(10 + 4 - 1) / 4, (10 + 4 - 1) / 4, 1⟩]
    ∧ (10 ≤ 4 * workgroupCount 10
        ∧ ∀ n : Nat, 10 ≤ 4 * n → workgroupCount 10 ≤ n)
    ∧ (10 ≤ 4 * workgroupCount 10
        ∧ ∀ n : Nat, 10 ≤ 4 * n → workgroupCount 10 ≤ n) :=
  C2_dispatch_counts_are_ceiling 10 10 (by norm_num) (by norm_num)

/-- Claim C3 as stated is false: a missing GPU adapter (and a missing device)
is not detected — `initDevice` logs the handles and returns true without any
null check (lines 135-136, 172-173), so initialization succeeds; and a
missing image file makes initialization propagate a thrown runtime fault
rather than return false. -/
theorem C3_counterexample :
    onInit ⟨true, true, true, true, true, true⟩ 8 4 2 = Except.ok true
    ∧ (initDevice ⟨true, true, true, true, true, true⟩).2 = true
    ∧ onInit ⟨true, true, true, true, true, false⟩ 8 4 2 =
        Except.error "Could not load input texture!" :=
  ⟨rfl, rfl, rfl⟩

/-- Claim C3 (amended): the initialization failures that are reported via
console logging and an early return of false are GLFW init failure, window
creation failure and WebGPU instance creation failure; a missing adapter or
device is never checked and does not prevent initialization from returning
true; a missing image file instead surfaces as the runtime fault thrown by
`initTextures`, uncaught by `onInit`. -/
theorem C3_init_failure_modes (e : InitEnv) (w h s : Nat) :
    (onInit e w h s = Except.ok false ↔
      (e.glfwOk = false ∨ e.windowOk = false ∨ e.instanceOk = false))
    ∧ ((initWindow e).2 = false ↔ (e.glfwOk = false ∨ e.windowOk = false))
    ∧ ((initWindow e).2 = false → (initWindow e).1 ≠ [])
    ∧ ((initDevice e).2 = false ↔ e.instanceOk = false)
    ∧ (e.instanceOk = false →
        (initDevice e).1 = [ "Could not initialize WebGPU!" ])
    ∧ (onInit e w h s = Except.error "Could not load input texture!" ↔
        (e.glfwOk = true ∧ e.windowOk = true ∧ e.instanceOk = true
          ∧ e.imageOk = false))
    ∧ (onInit e w h s = Except.ok true ↔
        (e.glfwOk = true ∧ e.windowOk = true ∧ e.instanceOk = true
          ∧ e.imageOk = true)) := by
  obtain ⟨g, win, inst, a, d, im⟩ := e
  cases g <;> cases win <;> cases inst <;> cases im <;>
    simp [onInit, initWindow, initDevice, initTextures]

/-- Witness for C3 (amended) at the environment where only the WebGPU
instance fails: initialization returns false. -/
theorem C3_witness :
    onInit ⟨true, true, false, false, false, true⟩ 8 4 2 = Except.ok false :=
  ((C3_init_failure_modes ⟨true, true, false, false, false, true⟩ 8 4 2).1).mpr
    (by simp)

/-- Claim C4: `initTextures` throws `std::runtime_error` if and only if the
image loader returned a null pixel pointer (line 293); when the file is
readable no exception occurs and the input texture is created
(size `{w, h, 1}`, one mip level) and its mip level 0 uploaded with
`bytesPerRow = 4 * w`, `rowsPerImage = h` and `4 * w * h` bytes of data
(lines 289-337). -/
theorem C4_initTextures_throw_iff (imageOk : Bool) (w h s : Nat) :
    ((∃ msg, initTextures imageOk w h s = Except.error msg) ↔
      imageOk = false)
    ∧ (imageOk = true →
        initTextures imageOk w h s =
          Except.ok
            { input := { label := "Input", size := ⟨w, h, 1⟩,
                         mipLevelCount := 1 }
              output := { label := "Output", size := ⟨2 ^ s, 2 ^ s, 6⟩,
                          mipLevelCount := 1 }
              upload := { mipLevel := 0, bytesPerRow := 4 * w,
                          rowsPerImage := h, dataSize := 4 * w * h,
                          writeSize := ⟨w, h, 1⟩ } }) := by
  cases imageOk <;> simp [initTextures]

/-- Witness for C4 at a readable 2 × 3 image with output size log 2. -/
theorem C4_witness :
    initTextures true 2 3 2 =
      Except.ok
        { input := { label := "Input", size := ⟨2, 3, 1⟩, mipLevelCount := 1 }
          output := { label := "Output", size := ⟨2 ^ 2, 2 ^ 2, 6⟩,
                      mipLevelCount := 1 }
          upload := { mipLevel := 0, bytesPerRow := 4 * 2, rowsPerImage := 3,
                      dataSize := 4 * 2 * 3, writeSize := ⟨2, 3, 1⟩ } } :=
  (C4_initTextures_throw_iff true 2 3 2).2 rfl

/-- Claim C8: for every output-size setting `s` in the slider range
`[2, 11]`, the output texture created by `initTextures` is square with side
`2^s` (hence between 4 and 2048), has 6 array layers, and the input texture
has 1 layer and 1 mip level (lines 294, 304, 313-314, 579). -/
theorem C8_output_texture_shape (s w h : Nat) (r : TexturesResult)
    (h2 : 2 ≤ s) (h11 : s ≤ 11)
    (hr : initTextures true w h s = Except.ok r) :
    r.output.size.width = 2 ^ s ∧ r.output.size.height = 2 ^ s
    ∧ 4 ≤ r.output.size.width ∧ r.output.size.width ≤ 2048
    ∧ r.output.size.depthOrArrayLayers = 6
    ∧ r.input.size.depthOrArrayLayers = 1 ∧ r.input.mipLevelCount = 1 := by
  simp only [initTextures, Bool.true_eq_false, if_false, Except.ok.injEq,
    reduceIte] at hr
  subst hr
  refine ⟨rfl, rfl, ?_, ?_, rfl, rfl, rfl⟩
  · calc (4 : Nat) = 2 ^ 2 := by norm_num
      _ ≤ 2 ^ s := Nat.pow_le_pow_right (by norm_num) h2
  · calc (2 : Nat) ^ s ≤ 2 ^ 11 := Nat.pow_le_pow_right (by norm_num) h11
      _ = 2048 := by norm_num

/-- The textures produced at output size log 5 from a 2 × 2 input. -/
def texResultAt5 : TexturesResult :=
  { input := { label := "Input", size := ⟨2, 2, 1⟩, mipLevelCount := 1 }
    output := { label := "Output", size := ⟨32, 32, 6⟩, mipLevelCount := 1 }
    upload := { mipLevel := 0, bytesPerRow := 8, rowsPerImage := 2,
                dataSize := 16, writeSize := ⟨2, 2, 1⟩ } }

/-- Witness for C8 at `s = 5`: the output is 32 × 32 with 6 layers. -/
theorem C8_witness :
    texResultAt5.output.size.width = 2 ^ 5
    ∧ texResultAt5.output.size.height = 2 ^ 5
    ∧ 4 ≤ texResultAt5.output.size.width
    ∧ texResultAt5.output.size.width ≤ 2048
    ∧ texResultAt5.output.size.depthOrArrayLayers = 6
    ∧ texResultAt5.input.size.depthOrArrayLayers = 1
    ∧ texResultAt5.input.mipLevelCount = 1 :=
  C8_output_texture_shape 5 2 2 texResultAt5 (by norm_num) (by norm_num) rfl

/-- Claim C10: `bit_width(0) = 0` holds, but for nonzero `m` the code's
`bit_width` returns `floor(log2 m)` — not `floor(log2 m) + 1` as the claim
(and the code's own comment, "Equivalent of std::bit_width") state:
`bit_width 1 = 0` while `std::bit_width(1) = 1`, and a 2 × 2 texture gets
`getMaxMipLevelCount = 1` instead of the full mip chain count 2. -/
theorem C10_bit_width_eval :
    bit_width 0 = 0 ∧ bit_width 1 = 0 ∧ bit_width 2 = 1
    ∧ getMaxMipLevelCount 2 2 = 1 := by
  have l1 : bitWidthLoop 1 0 = 0 := by
    rw [bitWidthLoop]
    norm_num
  have l2 : bitWidthLoop 2 0 = 1 := by
    rw [bitWidthLoop]
    norm_num
    rw [bitWidthLoop]
    norm_num
  have b1 : bit_width 1 = 0 := by
    rw [bit_width]
    norm_num
    exact l1
  have b2 : bit_width 2 = 1 := by
    rw [bit_width]
    norm_num
    exact l2
  refine ⟨rfl, b1, b2, ?_⟩
  rw [getMaxMipLevelCount]
  norm_num
  exact b2

end LearnWebGPU
